import Mathlib

/-!
Verification of the graphrag MCP repository: a shallow embedding of
`client.py` (the `MCPClient` class: `transform_json`,
`connect_and_list_tools`, `cleanup`) and `rag_server.py` (the `rag_ML`
tool), together with theorems settling the specification claims.
-/

set_option maxHeartbeats 1000000

namespace GraphRag

/-- A Python value as it appears in the JSON-like data handled by
`transform_json`: strings, numbers, booleans, `None`, lists and dicts.
Dicts are modelled as association lists with first-match lookup. -/
inductive JSON where
  | null : JSON
  | str (s : String) : JSON
  | num (n : Int) : JSON
  | bool (b : Bool) : JSON
  | arr (xs : List JSON) : JSON
  | obj (kvs : List (String × JSON)) : JSON

/-- `isinstance(v, dict)` together with access to the entries. -/
def JSON.getObj? : JSON → Option (List (String × JSON))
  | .obj kvs => some kvs
  | _ => none

/-- Python `k in d` on a dict. -/
def hasKey (kvs : List (String × JSON)) (k : String) : Bool :=
  (kvs.lookup k).isSome

/-- Python subscript access `d[k]`: raises `KeyError` when the key is
absent, modelled as `Except.error`. -/
def getItem (kvs : List (String × JSON)) (k : String) : Except String JSON :=
  match kvs.lookup k with
  | some v => .ok v
  | none => .error ("KeyError: " ++ k)

/-- One iteration of the loop body of `MCPClient.transform_json`
(client.py lines 46-89), translated statement by statement.
`Except.ok none` is `continue` (the item is skipped), `Except.ok (some j)`
means `j` is appended to `result`, and `Except.error` would be an
uncaught Python exception. -/
def transformItem (item : JSON) : Except String (Option JSON) :=
  match item.getObj? with
  | none => .ok none
  | some kvs =>
    if !(hasKey kvs "type") || !(hasKey kvs "function") then .ok none
    else
      match getItem kvs "function" with
      | .error e => .error e
      | .ok old_func =>
        match old_func.getObj? with
        | none => .ok none
        | some fkvs =>
          if !(hasKey fkvs "name") || !(hasKey fkvs "description") then .ok none
          else
            match getItem fkvs "name", getItem fkvs "description" with
            | .error e, _ => .error e
            | .ok _, .error e => .error e
            | .ok nm, .ok desc =>
              let params : Except String (List (String × JSON)) :=
                if hasKey fkvs "input_schema" then
                  match getItem fkvs "input_schema" with
                  | .error e => .error e
                  | .ok schema =>
                    match schema.getObj? with
                    | none => .ok []
                    | some skvs =>
                      let t := (skvs.lookup "type").getD (JSON.str "object")
                      let props := (skvs.lookup "properties").getD (JSON.obj [])
                      if hasKey skvs "required" then
                        match getItem skvs "required" with
                        | .error e => .error e
                        | .ok req => .ok [("type", t), ("properties", props), ("required", req)]
                      else .ok [("type", t), ("properties", props)]
                else .ok []
              match params with
              | .error e => .error e
              | .ok ps =>
                .ok (some (JSON.obj [("type", JSON.str "function"),
                  ("function", JSON.obj [("name", nm), ("description", desc),
                    ("parameters", JSON.obj ps)])]))

/-- `MCPClient.transform_json` (client.py lines 36-91): iterate over the
input list, skip items `transformItem` rejects, append the converted
form of the ones it accepts, preserving order.  An `Except.error`
anywhere aborts the whole call (an uncaught exception). -/
def transform_json : List JSON → Except String (List JSON)
  | [] => .ok []
  | item :: rest =>
    match transformItem item with
    | .error e => .error e
    | .ok none => transform_json rest
    | .ok (some j) =>
      match transform_json rest with
      | .error e => .error e
      | .ok tail => .ok (j :: tail)

/-- The pure per-item conversion: `some j` when the item is kept (as `j`),
`none` when it is skipped.  Derived from `transformItem`. -/
def convertItem (item : JSON) : Option JSON :=
  match transformItem item with
  | .ok o => o
  | .error _ => none

theorem transformItem_ne_error (item : JSON) (e : String) :
    transformItem item ≠ Except.error e := by
  unfold transformItem
  cases item <;> simp [JSON.getObj?]
  next kvs =>
    split
    · simp
    next hcond =>
      rw [not_or, Bool.not_eq_false, Bool.not_eq_false] at hcond
      obtain ⟨-, hfn⟩ := hcond
      simp only [hasKey, Option.isSome_iff_exists] at hfn
      obtain ⟨old_func, hl⟩ := hfn
      simp only [getItem, hl]
      cases old_func <;> simp [JSON.getObj?]
      next fkvs =>
        split
        · simp
        next hcond2 =>
          rw [not_or, Bool.not_eq_false, Bool.not_eq_false] at hcond2
          obtain ⟨hnm, hdesc⟩ := hcond2
          simp only [hasKey, Option.isSome_iff_exists] at hnm hdesc
          obtain ⟨nm, hln⟩ := hnm
          obtain ⟨desc, hld⟩ := hdesc
          simp only [getItem, hln, hld]
          cases hschema : hasKey fkvs "input_schema" with
          | false => simp [hschema]
          | true =>
            have hex := hschema
            simp only [hasKey, Option.isSome_iff_exists] at hex
            obtain ⟨schema, hls⟩ := hex
            simp only [hschema, getItem, hls]
            cases schema <;> simp [JSON.getObj?]
            next skvs =>
              cases hreq : hasKey skvs "required" with
              | false => simp [hreq]
              | true =>
                have hex2 := hreq
                simp only [hasKey, Option.isSome_iff_exists] at hex2
                obtain ⟨req, hlr⟩ := hex2
                simp [hreq, getItem, hlr]

theorem transformItem_ok (item : JSON) :
    transformItem item = Except.ok (convertItem item) := by
  unfold convertItem
  cases h : transformItem item with
  | ok o => rfl
  | error e => exact absurd h (transformItem_ne_error item e)

/-- `transform_json` never raises and computes the order-preserving
`filterMap` of the per-item conversion. -/
theorem transform_json_eq (l : List JSON) :
    transform_json l = Except.ok (l.filterMap convertItem) := by
  induction l with
  | nil => rfl
  | cons item rest ih =>
    unfold transform_json
    rw [transformItem_ok item]
    cases h : convertItem item <;> simp [h, ih]

/-- The `parameters` entries a kept item receives, recomputed from the
function dict: empty unless `input_schema` is present and is a dict, in
which case `type` (default `"object"`), `properties` (default `{}`) and,
only when present, `required` are copied (client.py lines 69-87). -/
def mkParams (fkvs : List (String × JSON)) : List (String × JSON) :=
  match fkvs.lookup "input_schema" with
  | none => []
  | some schema =>
    match schema.getObj? with
    | none => []
    | some skvs =>
      let base := [("type", (skvs.lookup "type").getD (JSON.str "object")),
                   ("properties", (skvs.lookup "properties").getD (JSON.obj []))]
      match skvs.lookup "required" with
      | none => base
      | some req => base ++ [("required", req)]

/-- The per-item inclusion condition the code implements (client.py
lines 46-63): a dict with a top-level `"type"` key and a `"function"`
key whose value is a dict containing `"name"` and `"description"`. -/
def codeIncludePred (item : JSON) : Bool :=
  match item.getObj? with
  | none => false
  | some kvs =>
    match kvs.lookup "function" with
    | none => false
    | some fv =>
      match fv.getObj? with
      | none => false
      | some fkvs =>
        hasKey kvs "type" && hasKey fkvs "name" && hasKey fkvs "description"

/-- Modelled from the spec wording of claim C1: the inclusion condition
as the claim states it — a dict containing a `"function"` key whose
value is a dict containing both `"name"` and `"description"` (no
condition on a top-level `"type"` key). -/
def claimC1Pred (item : JSON) : Bool :=
  match item.getObj? with
  | none => false
  | some kvs =>
    match kvs.lookup "function" with
    | none => false
    | some fv =>
      match fv.getObj? with
      | none => false
      | some fkvs =>
        hasKey fkvs "name" && hasKey fkvs "description"

theorem convertItem_valid (item fv nm desc : JSON) (kvs fkvs : List (String × JSON))
    (hobj : item.getObj? = some kvs)
    (hty : hasKey kvs "type" = true)
    (hfn : kvs.lookup "function" = some fv)
    (hfobj : fv.getObj? = some fkvs)
    (hnm : fkvs.lookup "name" = some nm)
    (hdesc : fkvs.lookup "description" = some desc) :
    convertItem item = some (JSON.obj [("type", JSON.str "function"),
      ("function", JSON.obj [("name", nm), ("description", desc),
        ("parameters", JSON.obj (mkParams fkvs))])]) := by
  have hty' : (kvs.lookup "type").isSome = true := hty
  unfold convertItem transformItem mkParams
  simp only [hobj, hasKey, getItem, hfn, hfobj, hnm, hdesc, hty',
    Option.isSome_some, Bool.not_true, Bool.or_self, Bool.false_eq_true, if_false]
  cases hls : fkvs.lookup "input_schema" with
  | none => simp
  | some schema =>
    cases schema <;> simp [JSON.getObj?]
    next skvs =>
      cases hlr : skvs.lookup "required" with
      | none => simp
      | some req => simp

/-- Every item `convertItem` keeps satisfies `codeIncludePred` and is
converted to the canonical output shape; every other item is dropped. -/
theorem convertItem_shape (item : JSON) :
    (convertItem item = none ∧ codeIncludePred item = false) ∨
    ∃ kvs fv fkvs nm desc, item.getObj? = some kvs ∧
      hasKey kvs "type" = true ∧
      kvs.lookup "function" = some fv ∧ fv.getObj? = some fkvs ∧
      fkvs.lookup "name" = some nm ∧ fkvs.lookup "description" = some desc ∧
      codeIncludePred item = true ∧
      convertItem item = some (JSON.obj [("type", JSON.str "function"),
        ("function", JSON.obj [("name", nm), ("description", desc),
          ("parameters", JSON.obj (mkParams fkvs))])]) := by
  cases item with
  | obj kvs =>
    cases hfn : kvs.lookup "function" with
    | none =>
      left
      constructor
      · unfold convertItem transformItem
        have : hasKey kvs "function" = false := by
          simp [hasKey, hfn]
        simp [JSON.getObj?, this]
      · simp [codeIncludePred, JSON.getObj?, hfn]
    | some fv =>
      cases hty : hasKey kvs "type" with
      | false =>
        left
        constructor
        · unfold convertItem transformItem
          simp [JSON.getObj?, hty]
        · cases fv <;> simp [codeIncludePred, JSON.getObj?, hfn, hty]
      | true =>
        cases fv with
        | obj fkvs =>
          cases hln : fkvs.lookup "name" with
          | none =>
            left
            constructor
            · unfold convertItem transformItem
              have h1 : hasKey fkvs "name" = false := by simp [hasKey, hln]
              have h2 : hasKey kvs "function" = true := by simp [hasKey, hfn]
              simp [JSON.getObj?, hty, h1, h2, getItem, hfn]
            · simp [codeIncludePred, JSON.getObj?, hfn, hasKey, hln]
          | some nm =>
            cases hld : fkvs.lookup "description" with
            | none =>
              left
              constructor
              · unfold convertItem transformItem
                have h1 : hasKey fkvs "description" = false := by simp [hasKey, hld]
                have h2 : hasKey kvs "function" = true := by simp [hasKey, hfn]
                simp [JSON.getObj?, hty, h1, h2, getItem, hfn]
              · simp [codeIncludePred, JSON.getObj?, hfn, hasKey, hld]
            | some desc =>
              right
              refine ⟨kvs, .obj fkvs, fkvs, nm, desc, rfl, hty, hfn, rfl, hln, hld, ?_, ?_⟩
              · have hty' : (kvs.lookup "type").isSome = true := hty
                simp only [codeIncludePred, JSON.getObj?, hfn, hasKey, hln, hld, hty',
                  Option.isSome_some, Bool.and_self, Bool.true_and, Bool.and_true]
              · exact convertItem_valid _ _ _ _ _ _ rfl hty hfn rfl hln hld
        | null =>
          left
          constructor
          · unfold convertItem transformItem
            have h2 : hasKey kvs "function" = true := by simp [hasKey, hfn]
            simp [JSON.getObj?, hty, h2, getItem, hfn]
          · simp [codeIncludePred, JSON.getObj?, hfn]
        | str s =>
          left
          constructor
          · unfold convertItem transformItem
            have h2 : hasKey kvs "function" = true := by simp [hasKey, hfn]
            simp [JSON.getObj?, hty, h2, getItem, hfn]
          · simp [codeIncludePred, JSON.getObj?, hfn]
        | num n =>
          left
          constructor
          · unfold convertItem transformItem
            have h2 : hasKey kvs "function" = true := by simp [hasKey, hfn]
            simp [JSON.getObj?, hty, h2, getItem, hfn]
          · simp [codeIncludePred, JSON.getObj?, hfn]
        | bool b =>
          left
          constructor
          · unfold convertItem transformItem
            have h2 : hasKey kvs "function" = true := by simp [hasKey, hfn]
            simp [JSON.getObj?, hty, h2, getItem, hfn]
          · simp [codeIncludePred, JSON.getObj?, hfn]
        | arr xs =>
          left
          constructor
          · unfold convertItem transformItem
            have h2 : hasKey kvs "function" = true := by simp [hasKey, hfn]
            simp [JSON.getObj?, hty, h2, getItem, hfn]
          · simp [codeIncludePred, JSON.getObj?, hfn]
  | null => left; exact ⟨rfl, rfl⟩
  | str s => left; exact ⟨rfl, rfl⟩
  | num n => left; exact ⟨rfl, rfl⟩
  | bool b => left; exact ⟨rfl, rfl⟩
  | arr xs => left; exact ⟨rfl, rfl⟩

/-- Inclusion is decided exactly by `codeIncludePred`. -/
theorem convertItem_isSome_eq (item : JSON) :
    (convertItem item).isSome = codeIncludePred item := by
  rcases convertItem_shape item with ⟨h1, h2⟩ | ⟨_, _, _, _, _, _, _, _, _, _, _, hp, hs⟩
  · rw [h1, h2]; rfl
  · rw [hp, hs]; rfl

/-- A tool descriptor as returned by `session.list_tools()`. -/
structure Tool where
  name : String
  description : String
deriving DecidableEq, Repr

/-- A Python exception raised inside `connect_and_list_tools`. -/
inductive Err where
  | valueError (msg : String)
  | fileNotFound (msg : String)
  | other (msg : String)
deriving DecidableEq, Repr

/-- The mutable connection state of an `MCPClient` instance: the
`session`, `stdio_read` and `stdio_write` attributes (handles modelled
as `Nat`), plus the contexts currently entered on the `exit_stack`. -/
structure ClientState where
  session : Option Nat
  stdio_read : Option Nat
  stdio_write : Option Nat
  open_resources : List Nat
deriving DecidableEq, Repr

/-- The state of a freshly constructed `MCPClient` (`__init__`,
client.py lines 19-34): no session, no streams, empty exit stack. -/
def initClientState : ClientState :=
  { session := none, stdio_read := none, stdio_write := none, open_resources := [] }

/-- `MCPClient.cleanup` (client.py lines 175-182): close the exit stack
and reset `session`, `stdio_read`, `stdio_write` to `None`. -/
def cleanup (st : ClientState) : ClientState :=
  { st with session := none, stdio_read := none, stdio_write := none,
            open_resources := [] }

/-- Externally observable actions taken by `connect_and_list_tools`:
spawning the server subprocess (via `stdio_client`) with a launch
command, and issuing a `list_tools` request on the session. -/
inductive Event where
  | spawn (command : String) (args : List String)
  | listTools
deriving DecidableEq, Repr

/-- Python `str.endswith(pat)`, decided on the character sequence. -/
def strEndsWith (s pat : String) : Bool :=
  pat.data.isSuffixOf s.data

/-- The outcomes the environment (subprocess, transport, MCP server)
supplies to one call of `connect_and_list_tools`: entering
`stdio_client` (yields the read/write stream pair), entering
`ClientSession`, `session.initialize()`, and `session.list_tools()`. -/
structure ConnectEnv where
  stdio_transport : Except Err (Nat × Nat)
  client_session : Except Err Nat
  init_handshake : Except Err Unit
  list_tools : Except Err (List Tool)

/-- The first failure the environment produces along the sequence
`stdio_client` → `ClientSession` → `initialize` → `list_tools`,
if any. -/
def firstFailure (env : ConnectEnv) : Option Err :=
  match env.stdio_transport with
  | .error e => some e
  | .ok _ =>
    match env.client_session with
    | .error e => some e
    | .ok _ =>
      match env.init_handshake with
      | .error e => some e
      | .ok _ =>
        match env.list_tools with
        | .error e => some e
        | .ok _ => none

/-- `MCPClient.connect_and_list_tools` (client.py lines 93-173),
returning the result (`.ok` tools or `.error` for a raised exception),
the final connection state, and the trace of observable events. -/
def connect_and_list_tools (env : ConnectEnv) (st : ClientState)
    (server_script_path : String) :
    Except Err (List Tool) × ClientState × List Event :=
  match st.session with
  | some _ =>
    -- already connected: list tools on the existing session and
    -- re-raise any listing error, with no cleanup (lines 107-118)
    match env.list_tools with
    | .ok tools => (.ok tools, st, [.listTools])
    | .error e => (.error e, st, [.listTools])
  | none =>
    let is_python := strEndsWith server_script_path ".py"
    let is_js := strEndsWith server_script_path ".js"
    if !(is_python || is_js) then
      -- invalid suffix: raise ValueError before any subprocess (126-127)
      (.error (.valueError "server script must be a .py or .js file"), st, [])
    else
      let command := if is_python then "python" else "node"
      let args := [server_script_path]
      -- try block, lines 138-173: on any failure, cleanup then re-raise
      match env.stdio_transport with
      | .error e => (.error e, cleanup st, [.spawn command args])
      | .ok (r, w) =>
        let st1 := { st with stdio_read := some r, stdio_write := some w,
                             open_resources := st.open_resources ++ [r, w] }
        match env.client_session with
        | .error e => (.error e, cleanup st1, [.spawn command args])
        | .ok s =>
          let st2 := { st1 with session := some s,
                                open_resources := st1.open_resources ++ [s] }
          match env.init_handshake with
          | .error e => (.error e, cleanup st2, [.spawn command args])
          | .ok _ =>
            match env.list_tools with
            | .error e => (.error e, cleanup st2, [.spawn command args, .listTools])
            | .ok tools => (.ok tools, st2, [.spawn command args, .listTools])

/-- Arguments of the single `api.global_search` call made by `rag_ML`
(rag_server.py lines 36-45).  Config and dataframe values are abstract
handles. -/
structure GlobalSearchCall where
  config : Nat
  entities : Nat
  communities : Nat
  community_reports : Nat
  community_level : Nat
  dynamic_community_selection : Bool
  response_type : String
  query : String
deriving DecidableEq, Repr

/-- The external collaborators of `rag_server.py`: `load_config`,
`pd.read_parquet` (both returning abstract handles) and
`api.global_search`, which yields a textual response paired with a
structured context (abstracted as `Nat`). -/
structure RagEnv where
  load_config : String → Nat
  read_parquet : String → Nat
  global_search : GlobalSearchCall → String × Nat

/-- The hardcoded project directory of `rag_ML` (rag_server.py line 23). -/
def PROJECT_DIRECTORY : String := "/root/autodl-tmp/MCP/mcp-graphrag/graphrag"

/-- The `rag_ML` tool (rag_server.py lines 16-47): load the config and
the three parquet artifacts from fixed paths, run the global search with
fixed parameters, and return the textual response only. -/
def rag_ML (env : RagEnv) (query : String) : String :=
  let graphrag_config := env.load_config PROJECT_DIRECTORY
  let entities := env.read_parquet (PROJECT_DIRECTORY ++ "/output/entities.parquet")
  let communities := env.read_parquet (PROJECT_DIRECTORY ++ "/output/communities.parquet")
  let community_reports :=
    env.read_parquet (PROJECT_DIRECTORY ++ "/output/community_reports.parquet")
  let rc := env.global_search
    { config := graphrag_config
      entities := entities
      communities := communities
      community_reports := community_reports
      community_level := 2
      dynamic_community_selection := false
      response_type := "Multiple Paragraphs"
      query := query }
  rc.1

theorem filterMap_length_le (l : List JSON) :
    (l.filterMap convertItem).length ≤ l.length :=
  List.length_filterMap_le convertItem l

/-- C1 (amended): for every item of the input sequence, `transform_json`
includes a converted form of the item in its output if and only if the
item is a dict containing a top-level `"type"` key (with any value) and
a `"function"` key whose value is itself a dict containing both
`"name"` and `"description"`; every item failing either check is
silently excluded from the result, with no error raised. -/
theorem c1_inclusion_iff (l : List JSON) :
    transform_json l = Except.ok (l.filterMap convertItem) ∧
    ∀ item : JSON, (convertItem item).isSome = codeIncludePred item :=
  ⟨transform_json_eq l, convertItem_isSome_eq⟩

/-- An item satisfying claim C1's inclusion condition (a dict with a
valid `"function"` entry) but lacking a top-level `"type"` key. -/
def c1Item : JSON :=
  JSON.obj [("function", JSON.obj [("name", JSON.str "f"),
    ("description", JSON.str "d")])]

/-- C1 is false as stated: `c1Item` meets the claim's inclusion
condition, yet `transform_json` excludes it (the code also requires a
top-level `"type"` key). -/
theorem c1_counterexample :
    claimC1Pred c1Item = true ∧ transform_json [c1Item] = Except.ok [] :=
  ⟨rfl, rfl⟩

/-- C2: for every valid source item whose function has a dict-valued
`"input_schema"`, the output item's `parameters` has `type` equal to the
schema's `type` (default `"object"`), `properties` equal to the schema's
`properties` (default `{}`), and a `required` key present if and only if
the schema contained one (with the same value). -/
theorem c2_input_schema_params (item fv schema nm desc : JSON)
    (kvs fkvs skvs : List (String × JSON))
    (hobj : item.getObj? = some kvs)
    (hty : hasKey kvs "type" = true)
    (hfn : kvs.lookup "function" = some fv)
    (hfobj : fv.getObj? = some fkvs)
    (hnm : fkvs.lookup "name" = some nm)
    (hdesc : fkvs.lookup "description" = some desc)
    (hschema : fkvs.lookup "input_schema" = some schema)
    (hsobj : schema.getObj? = some skvs) :
    ∃ ps : List (String × JSON),
      convertItem item = some (JSON.obj [("type", JSON.str "function"),
        ("function", JSON.obj [("name", nm), ("description", desc),
          ("parameters", JSON.obj ps)])]) ∧
      ps.lookup "type" = some ((skvs.lookup "type").getD (JSON.str "object")) ∧
      ps.lookup "properties" = some ((skvs.lookup "properties").getD (JSON.obj [])) ∧
      hasKey ps "required" = hasKey skvs "required" ∧
      ps.lookup "required" = skvs.lookup "required" := by
  refine ⟨mkParams fkvs,
    convertItem_valid _ _ _ _ _ _ hobj hty hfn hfobj hnm hdesc, ?_, ?_, ?_, ?_⟩ <;>
  · unfold mkParams
    simp only [hschema, hsobj]
    cases hlr : skvs.lookup "required" <;> simp [hasKey, List.lookup, hlr]

def c2SchemaKvs : List (String × JSON) :=
  [("type", JSON.str "object"),
   ("properties", JSON.obj [("q", JSON.obj [("type", JSON.str "string")])]),
   ("required", JSON.arr [JSON.str "q"])]

def c2FuncKvs : List (String × JSON) :=
  [("name", JSON.str "search"), ("description", JSON.str "find docs"),
   ("input_schema", JSON.obj c2SchemaKvs)]

def c2Item : JSON :=
  JSON.obj [("type", JSON.str "function"), ("function", JSON.obj c2FuncKvs)]

theorem c2_witness :
    ∃ ps : List (String × JSON),
      convertItem c2Item = some (JSON.obj [("type", JSON.str "function"),
        ("function", JSON.obj [("name", JSON.str "search"),
          ("description", JSON.str "find docs"),
          ("parameters", JSON.obj ps)])]) ∧
      ps.lookup "type" = some ((c2SchemaKvs.lookup "type").getD (JSON.str "object")) ∧
      ps.lookup "properties" = some ((c2SchemaKvs.lookup "properties").getD (JSON.obj [])) ∧
      hasKey ps "required" = hasKey c2SchemaKvs "required" ∧
      ps.lookup "required" = c2SchemaKvs.lookup "required" :=
  c2_input_schema_params c2Item (JSON.obj c2FuncKvs) (JSON.obj c2SchemaKvs)
    (JSON.str "search") (JSON.str "find docs")
    [("type", JSON.str "function"), ("function", JSON.obj c2FuncKvs)]
    c2FuncKvs c2SchemaKvs rfl rfl rfl rfl rfl rfl rfl rfl

/-- C3: `rag_ML` invokes the global-search routine with the loaded
config/artifacts, community level 2, dynamic community selection
disabled, and response type "Multiple Paragraphs", and returns exactly
the primary textual response of the pair the routine yields, discarding
the accompanying context. -/
theorem c3_rag_ml_global_search (env : RagEnv) (query : String) :
    ∃ (ctx : Nat) (call : GlobalSearchCall),
      call.config = env.load_config PROJECT_DIRECTORY ∧
      call.entities = env.read_parquet (PROJECT_DIRECTORY ++ "/output/entities.parquet") ∧
      call.communities = env.read_parquet (PROJECT_DIRECTORY ++ "/output/communities.parquet") ∧
      call.community_reports =
        env.read_parquet (PROJECT_DIRECTORY ++ "/output/community_reports.parquet") ∧
      call.community_level = 2 ∧
      call.dynamic_community_selection = false ∧
      call.response_type = "Multiple Paragraphs" ∧
      call.query = query ∧
      env.global_search call = (rag_ML env query, ctx) := by
  refine ⟨(env.global_search
      { config := env.load_config PROJECT_DIRECTORY
        entities := env.read_parquet (PROJECT_DIRECTORY ++ "/output/entities.parquet")
        communities := env.read_parquet (PROJECT_DIRECTORY ++ "/output/communities.parquet")
        community_reports :=
          env.read_parquet (PROJECT_DIRECTORY ++ "/output/community_reports.parquet")
        community_level := 2
        dynamic_community_selection := false
        response_type := "Multiple Paragraphs"
        query := query }).2,
    { config := env.load_config PROJECT_DIRECTORY
      entities := env.read_parquet (PROJECT_DIRECTORY ++ "/output/entities.parquet")
      communities := env.read_parquet (PROJECT_DIRECTORY ++ "/output/communities.parquet")
      community_reports :=
        env.read_parquet (PROJECT_DIRECTORY ++ "/output/community_reports.parquet")
      community_level := 2
      dynamic_community_selection := false
      response_type := "Multiple Paragraphs"
      query := query },
    rfl, rfl, rfl, rfl, rfl, rfl, rfl, rfl, ?_⟩
  unfold rag_ML
  exact Prod.mk.eta.symm

/-- C4: on a Disconnected client, a path ending in neither `.py` nor
`.js` makes `connect_and_list_tools` raise a ValueError with the state
untouched and an empty event trace — no subprocess spawned, no
transport or session resource acquired. -/
theorem c4_invalid_suffix (env : ConnectEnv) (st : ClientState) (path : String)
    (hs : st.session = none)
    (hpy : strEndsWith path ".py" = false)
    (hjs : strEndsWith path ".js" = false) :
    connect_and_list_tools env st path =
      (Except.error (Err.valueError "server script must be a .py or .js file"),
       st, []) := by
  unfold connect_and_list_tools
  rw [hs]
  simp [hpy, hjs]

def sampleTools : List Tool := [{ name := "rag_ML", description := "query tool" }]

def sampleEnv : ConnectEnv :=
  { stdio_transport := .ok (1, 2), client_session := .ok 3,
    init_handshake := .ok (), list_tools := .ok sampleTools }

theorem c4_witness :
    connect_and_list_tools sampleEnv initClientState "server.exe" =
      (Except.error (Err.valueError "server script must be a .py or .js file"),
       initClientState, []) :=
  c4_invalid_suffix sampleEnv initClientState "server.exe" rfl rfl rfl

/-- C5: on a Disconnected client with a valid path, any failure during
transport setup, session creation, handshake or tool listing makes
`connect_and_list_tools` perform full cleanup (session, read stream and
write stream reset to `none`, exit stack emptied) and re-raise that
same original failure — never a fallback result. -/
theorem c5_failure_cleanup_reraise (env : ConnectEnv) (st : ClientState)
    (path : String) (e : Err)
    (hs : st.session = none)
    (hvalid : (strEndsWith path ".py" || strEndsWith path ".js") = true)
    (hfail : firstFailure env = some e) :
    (connect_and_list_tools env st path).1 = Except.error e ∧
    (connect_and_list_tools env st path).2.1 = cleanup st ∧
    ((connect_and_list_tools env st path).2.1).session = none ∧
    ((connect_and_list_tools env st path).2.1).stdio_read = none ∧
    ((connect_and_list_tools env st path).2.1).stdio_write = none ∧
    ((connect_and_list_tools env st path).2.1).open_resources = [] := by
  obtain ⟨t, cs, ini, lt⟩ := env
  cases t with
  | error e2 =>
    simp only [firstFailure, Option.some.injEq] at hfail
    subst hfail
    simp [connect_and_list_tools, hs, hvalid, cleanup]
  | ok p =>
    obtain ⟨r, w⟩ := p
    cases cs with
    | error e2 =>
      simp only [firstFailure, Option.some.injEq] at hfail
      subst hfail
      simp [connect_and_list_tools, hs, hvalid, cleanup]
    | ok s =>
      cases ini with
      | error e2 =>
        simp only [firstFailure, Option.some.injEq] at hfail
        subst hfail
        simp [connect_and_list_tools, hs, hvalid, cleanup]
      | ok u =>
        cases lt with
        | error e2 =>
          simp only [firstFailure, Option.some.injEq] at hfail
          subst hfail
          simp [connect_and_list_tools, hs, hvalid, cleanup]
        | ok tools =>
          exfalso
          simp [firstFailure] at hfail

def failEnv : ConnectEnv :=
  { stdio_transport := .error (.fileNotFound "command not found"),
    client_session := .ok 3, init_handshake := .ok (),
    list_tools := .ok sampleTools }

theorem c5_witness :
    (connect_and_list_tools failEnv initClientState "server.py").1 =
      Except.error (Err.fileNotFound "command not found") ∧
    (connect_and_list_tools failEnv initClientState "server.py").2.1 =
      cleanup initClientState ∧
    ((connect_and_list_tools failEnv initClientState "server.py").2.1).session = none ∧
    ((connect_and_list_tools failEnv initClientState "server.py").2.1).stdio_read = none ∧
    ((connect_and_list_tools failEnv initClientState "server.py").2.1).stdio_write = none ∧
    ((connect_and_list_tools failEnv initClientState "server.py").2.1).open_resources = [] :=
  c5_failure_cleanup_reraise failEnv initClientState "server.py"
    (Err.fileNotFound "command not found") rfl rfl rfl

/-- C6: on an already Connected client, `connect_and_list_tools`
performs no suffix validation and spawns no subprocess: it issues one
fresh `list_tools` request on the existing session and returns exactly
its live outcome (including re-raising a listing error), leaving the
state unchanged.  The result does not depend on the path at all. -/
theorem c6_already_connected (env : ConnectEnv) (st : ClientState)
    (path : String) (s : Nat) (hs : st.session = some s) :
    connect_and_list_tools env st path = (env.list_tools, st, [Event.listTools]) := by
  unfold connect_and_list_tools
  rw [hs]
  cases h : env.list_tools <;> rfl

def connectedState : ClientState :=
  { session := some 3, stdio_read := some 1, stdio_write := some 2,
    open_resources := [1, 2, 3] }

theorem c6_witness :
    connect_and_list_tools sampleEnv connectedState "server.exe" =
      (Except.ok sampleTools, connectedState, [Event.listTools]) :=
  c6_already_connected sampleEnv connectedState "server.exe" 3 rfl

/-- C7: `cleanup` on a never-connected client is a no-op that completes
(it is a total function) and leaves all fields at their initial unset
values; repeated calls are idempotent, and every call leaves the client
Disconnected with no open resources. -/
theorem c7_cleanup_idempotent :
    cleanup initClientState = initClientState ∧
    (∀ st : ClientState, cleanup (cleanup st) = cleanup st) ∧
    (∀ st : ClientState, (cleanup st).session = none ∧
      (cleanup st).stdio_read = none ∧ (cleanup st).stdio_write = none ∧
      (cleanup st).open_resources = []) :=
  ⟨rfl, fun _ => rfl, fun _ => ⟨rfl, rfl, rfl, rfl⟩⟩

/-- C8: `transform_json` always terminates with a normal (non-error)
list result, of length at most the input's, consisting of the converted
kept items in input order (a `filterMap` of the input). -/
theorem c8_total_and_shorter (l : List JSON) :
    ∃ out : List JSON, transform_json l = Except.ok out ∧
      out.length ≤ l.length ∧ out = l.filterMap convertItem :=
  ⟨l.filterMap convertItem, transform_json_eq l, filterMap_length_le l, rfl⟩

/-- C9: a kept item whose function has no `"input_schema"` key, or one
whose value is not a dict, gets exactly the empty `parameters` mapping:
no `type`, `properties` or `required` defaults are filled in. -/
theorem c9_missing_schema_empty_params (item fv nm desc : JSON)
    (kvs fkvs : List (String × JSON))
    (hobj : item.getObj? = some kvs)
    (hty : hasKey kvs "type" = true)
    (hfn : kvs.lookup "function" = some fv)
    (hfobj : fv.getObj? = some fkvs)
    (hnm : fkvs.lookup "name" = some nm)
    (hdesc : fkvs.lookup "description" = some desc)
    (hns : fkvs.lookup "input_schema" = none ∨
      ∃ schema, fkvs.lookup "input_schema" = some schema ∧ schema.getObj? = none) :
    convertItem item = some (JSON.obj [("type", JSON.str "function"),
      ("function", JSON.obj [("name", nm), ("description", desc),
        ("parameters", JSON.obj [])])]) := by
  have h := convertItem_valid _ _ _ _ _ _ hobj hty hfn hfobj hnm hdesc
  have hp : mkParams fkvs = [] := by
    rcases hns with hn | ⟨schema, hs1, hs2⟩
    · unfold mkParams; rw [hn]
    · unfold mkParams; simp only [hs1, hs2]
  rw [h, hp]

def c9Item : JSON :=
  JSON.obj [("type", JSON.str "function"),
    ("function", JSON.obj [("name", JSON.str "n"), ("description", JSON.str "d")])]

theorem c9_witness :
    convertItem c9Item = some (JSON.obj [("type", JSON.str "function"),
      ("function", JSON.obj [("name", JSON.str "n"),
        ("description", JSON.str "d"), ("parameters", JSON.obj [])])]) :=
  c9_missing_schema_empty_params c9Item
    (JSON.obj [("name", JSON.str "n"), ("description", JSON.str "d")])
    (JSON.str "n") (JSON.str "d")
    [("type", JSON.str "function"),
     ("function", JSON.obj [("name", JSON.str "n"), ("description", JSON.str "d")])]
    [("name", JSON.str "n"), ("description", JSON.str "d")]
    rfl rfl rfl rfl rfl rfl (Or.inl rfl)

/-- C10: `transform_json` tests only the presence of the top-level
`"type"` key, never its value: any item carrying a `"type"` key with an
arbitrary value and a valid function descriptor is kept, and every
emitted item's top-level `type` field is the string `"function"`. -/
theorem c10_type_presence_only :
    (∀ (item fv nm desc v : JSON) (kvs fkvs : List (String × JSON)),
      item.getObj? = some kvs → kvs.lookup "type" = some v →
      kvs.lookup "function" = some fv → fv.getObj? = some fkvs →
      fkvs.lookup "name" = some nm → fkvs.lookup "description" = some desc →
      convertItem item = some (JSON.obj [("type", JSON.str "function"),
        ("function", JSON.obj [("name", nm), ("description", desc),
          ("parameters", JSON.obj (mkParams fkvs))])])) ∧
    (∀ item j : JSON, convertItem item = some j →
      ∃ rest : List (String × JSON),
        j = JSON.obj (("type", JSON.str "function") :: rest)) := by
  constructor
  · intro item fv nm desc v kvs fkvs hobj htyv hfn hfobj hnm hdesc
    exact convertItem_valid _ _ _ _ _ _ hobj (by simp [hasKey, htyv]) hfn hfobj hnm hdesc
  · intro item j hj
    rcases convertItem_shape item with ⟨h1, -⟩ |
      ⟨kvs, fv, fkvs, nm, desc, -, -, -, -, -, -, -, hsome⟩
    · rw [h1] at hj; cases hj
    · rw [hsome] at hj
      exact ⟨_, (Option.some_inj.mp hj).symm⟩

def c10Item : JSON :=
  JSON.obj [("type", JSON.str "custom"),
    ("function", JSON.obj [("name", JSON.str "n"), ("description", JSON.str "d")])]

theorem c10_witness :
    convertItem c10Item = some (JSON.obj [("type", JSON.str "function"),
      ("function", JSON.obj [("name", JSON.str "n"), ("description", JSON.str "d"),
        ("parameters", JSON.obj (mkParams [("name", JSON.str "n"),
          ("description", JSON.str "d")]))])]) ∧
    ∃ rest : List (String × JSON),
      JSON.obj [("type", JSON.str "function"),
        ("function", JSON.obj [("name", JSON.str "n"), ("description", JSON.str "d"),
          ("parameters", JSON.obj (mkParams [("name", JSON.str "n"),
            ("description", JSON.str "d")]))])] =
        JSON.obj (("type", JSON.str "function") :: rest) :=
  ⟨c10_type_presence_only.1 c10Item
      (JSON.obj [("name", JSON.str "n"), ("description", JSON.str "d")])
      (JSON.str "n") (JSON.str "d") (JSON.str "custom")
      [("type", JSON.str "custom"),
       ("function", JSON.obj [("name", JSON.str "n"), ("description", JSON.str "d")])]
      [("name", JSON.str "n"), ("description", JSON.str "d")]
      rfl rfl rfl rfl rfl rfl,
   c10_type_presence_only.2 c10Item _
     (c10_type_presence_only.1 c10Item
       (JSON.obj [("name", JSON.str "n"), ("description", JSON.str "d")])
       (JSON.str "n") (JSON.str "d") (JSON.str "custom")
       [("type", JSON.str "custom"),
        ("function", JSON.obj [("name", JSON.str "n"), ("description", JSON.str "d")])]
       [("name", JSON.str "n"), ("description", JSON.str "d")]
       rfl rfl rfl rfl rfl rfl)⟩

end GraphRag
